import Mathlib

/-!
Verification development for the SF Ranger Toolkit org-manager core.

Shallow embedding of the three core modules:
  * `orgCache.js`            — single-slot, time-boxed, versioned org-list cache
  * `sfdxCommandExecutor.js` — CLI invocation, JSON parsing, command building
  * `orgMessageHandler.js`   — message router (listOrgs / logoutOrg flows)

Modelling conventions:
  * Machine time (`Date.now()`) is a `Nat` parameter threaded explicitly; a
    real clock value is always positive.
  * JS `null`/`undefined` becomes `Option`.  JS truthiness is modelled where
    the source relies on it: an array is always truthy (even `[]`), a string
    is truthy iff non-empty, a number is truthy iff non-zero.
  * Module-level mutable state (`orgListCache`, `cacheTimestamp`,
    `cacheVersion`) becomes a `CacheState` record passed and returned
    explicitly.
-/

/-- A normalized org record, exactly the fields produced by
`listAllOrgs` in `sfdxCommandExecutor.js` (lines 153-163).  `orgId`,
`instanceUrl` and `expirationDate` may be absent. -/
structure OrgRecord where
  username : String
  orgAlias : String
  orgId : Option String
  instanceUrl : Option String
  connectedStatus : String
  isDefaultUsername : Bool
  isDefaultDevHubUsername : Bool
  isScratchOrg : Bool
  expirationDate : Option String
deriving DecidableEq

/-- The module-level mutable state of `orgCache.js`: `orgListCache`,
`cacheTimestamp`, `cacheVersion` (the `cacheLock` flag is declared in the
source but never read or written by any exported operation, so it is not
part of the observable state). -/
structure CacheState where
  orgListCache : Option (List OrgRecord)
  cacheTimestamp : Option Nat
  cacheVersion : Nat
deriving DecidableEq

/-- Fresh-start state: both slot fields `null`, version `0`. -/
def initialCacheState : CacheState := ⟨none, none, 0⟩

/-- `setOrgListCache(orgs)` (orgCache.js lines 59-73): stamp the current
time, increment the version, store orgs + timestamp, return the new
version. -/
def setOrgListCache (orgs : List OrgRecord) (now : Nat) (s : CacheState) :
    CacheState × Nat :=
  let version := s.cacheVersion + 1
  (⟨some orgs, some now, version⟩, version)

/-- `getOrgListCache()` (orgCache.js lines 89-111).  The guard
`!orgListCache || !cacheTimestamp` uses JS truthiness: a `null` slot is
falsy, an array (even `[]`) is truthy, and the number `0` is falsy — hence
the explicit `ts = 0` branch.  An entry older than the duration is evicted
(both fields reset to `null`) and `null` is returned. -/
def getOrgListCache (now d : Nat) (s : CacheState) :
    CacheState × Option (List OrgRecord) :=
  match s.orgListCache, s.cacheTimestamp with
  | some orgs, some ts =>
    if ts = 0 then (s, none)
    else
      let cacheAge := now - ts
      if cacheAge > d then (⟨none, none, s.cacheVersion⟩, none)
      else (s, some orgs)
  | _, _ => (s, none)

/-- `clearOrgListCache()` (orgCache.js lines 128-139): increment version,
null both slot fields, return the new version. -/
def clearOrgListCache (s : CacheState) : CacheState × Nat :=
  let version := s.cacheVersion + 1
  (⟨none, none, version⟩, version)

/-- `getCacheVersion()` (orgCache.js lines 178-180). -/
def getCacheVersion (s : CacheState) : Nat :=
  s.cacheVersion

/-- Result shape of `getCacheStats()` (orgCache.js lines 146-170).  The JS
function returns an object with only `{cached, size, age, valid}` when the
slot is empty, and all seven keys when it is populated; a key that is
absent from the returned object is modelled as `none`. -/
structure CacheStats where
  cached : Bool
  size : Nat
  age : Nat
  ageSeconds : Option Nat
  valid : Bool
  expiresIn : Option Nat
  cacheDuration : Option Nat
deriving DecidableEq

/-- `getCacheStats()` (orgCache.js lines 146-170): purely reads the state
(no assignment to any module variable in the source).  Same truthiness
guard as `getOrgListCache`; `Math.round(age / 1000)` on a non-negative
integer is `(age + 500) / 1000` in integer division. -/
def getCacheStats (now d : Nat) (s : CacheState) : CacheStats :=
  match s.orgListCache, s.cacheTimestamp with
  | some orgs, some ts =>
    if ts = 0 then ⟨false, 0, 0, none, false, none, none⟩
    else
      let age := now - ts
      let valid : Bool := age ≤ d
      ⟨true, orgs.length, age, some ((age + 500) / 1000), valid,
        some (if age ≤ d then d - age else 0), some d⟩
  | _, _ => ⟨false, 0, 0, none, false, none, none⟩

/-- One invocation of an exported cache operation, with the clock value and
the configured duration it observes. -/
inductive CacheOp where
  | set (orgs : List OrgRecord) (now : Nat)
  | get (now d : Nat)
  | clear
  | stats (now d : Nat)

/-- State transition of a single cache operation (`getCacheStats` reads
only, so its transition is the identity). -/
def applyOp (s : CacheState) : CacheOp → CacheState
  | .set orgs now => (setOrgListCache orgs now s).1
  | .get now d => (getOrgListCache now d s).1
  | .clear => (clearOrgListCache s).1
  | .stats _ _ => s

/-- Run a sequence of cache operations from a starting state. -/
def runOps (s : CacheState) (ops : List CacheOp) : CacheState :=
  ops.foldl applyOp s

/-- Whether an operation is a version-incrementing write (`set` or
`clear`). -/
def isWrite : CacheOp → Bool
  | .set _ _ => true
  | .clear => true
  | _ => false

/-- Number of `set`/`clear` calls in an operation sequence. -/
def countWrites : List CacheOp → Nat
  | [] => 0
  | op :: rest => (if isWrite op then 1 else 0) + countWrites rest

/-- `getOrgListCache` never changes the version counter. -/
theorem getOrgListCache_version (now d : Nat) (s : CacheState) :
    (getOrgListCache now d s).1.cacheVersion = s.cacheVersion := by
  unfold getOrgListCache
  rcases s with ⟨ol, ts, v⟩
  rcases ol with _ | orgs <;> rcases ts with _ | t <;> simp
  split
  · rfl
  · split <;> rfl

/-- Running a sequence of operations adds exactly the number of writes to
the version counter. -/
theorem runOps_version (ops : List CacheOp) :
    ∀ s : CacheState,
      (runOps s ops).cacheVersion = s.cacheVersion + countWrites ops := by
  induction ops with
  | nil => intro s; rfl
  | cons op rest ih =>
    intro s
    have hstep : (applyOp s op).cacheVersion =
        s.cacheVersion + (if isWrite op then 1 else 0) := by
      cases op with
      | set orgs now => rfl
      | get now d => simp [applyOp, isWrite, getOrgListCache_version]
      | clear => rfl
      | stats now d => rfl
    show (runOps (applyOp s op) rest).cacheVersion = _
    rw [ih (applyOp s op), hstep, countWrites]
    omega

/-- The cache slot is fully present or fully absent: `orgListCache` and
`cacheTimestamp` are both `null` or both non-`null`. -/
def cacheSlotConsistent (s : CacheState) : Prop :=
  (s.orgListCache = none ∧ s.cacheTimestamp = none) ∨
  (s.orgListCache ≠ none ∧ s.cacheTimestamp ≠ none)

/-- Every single cache operation preserves slot consistency. -/
theorem applyOp_consistent (s : CacheState) (op : CacheOp)
    (h : cacheSlotConsistent s) : cacheSlotConsistent (applyOp s op) := by
  cases op with
  | set orgs now =>
    right; exact ⟨by simp [applyOp, setOrgListCache], by simp [applyOp, setOrgListCache]⟩
  | clear =>
    left; exact ⟨rfl, rfl⟩
  | stats now d => exact h
  | get now d =>
    rcases s with ⟨ol, ts, v⟩
    rcases ol with _ | orgs <;> rcases ts with _ | t
    · exact h
    · exact h
    · exact h
    · show cacheSlotConsistent (getOrgListCache now d ⟨some orgs, some t, v⟩).1
      unfold getOrgListCache
      simp only
      split
      · exact h
      · split
        · left; exact ⟨rfl, rfl⟩
        · exact h

/-- C1: After `setOrgListCache(orgs)` at clock time `ts` (a real clock
value, hence positive), a `getOrgListCache()` call `t` milliseconds later
with configured duration `d` returns `orgs` unchanged (state untouched)
when `t ≤ d`; when `t > d` it returns absent and resets both the cached
list and the timestamp to `null`.  `some []` is a valid cached value
distinct from the absent result `none`. -/
theorem cache_set_then_get (orgs : List OrgRecord) (s0 : CacheState)
    (ts t d : Nat) (hts : 0 < ts) :
    (t ≤ d →
      getOrgListCache (ts + t) d (setOrgListCache orgs ts s0).1 =
        ((setOrgListCache orgs ts s0).1, some orgs)) ∧
    (d < t →
      getOrgListCache (ts + t) d (setOrgListCache orgs ts s0).1 =
        (⟨none, none, s0.cacheVersion + 1⟩, none)) ∧
    (some orgs ≠ (none : Option (List OrgRecord))) := by
  have hts0 : ts ≠ 0 := Nat.pos_iff_ne_zero.mp hts
  have hage : ts + t - ts = t := by omega
  refine ⟨?_, ?_, by simp⟩
  · intro hle
    show getOrgListCache (ts + t) d ⟨some orgs, some ts, s0.cacheVersion + 1⟩ = _
    unfold getOrgListCache
    simp only [hage, if_neg hts0]
    rw [if_neg (by omega)]
    rfl
  · intro hgt
    show getOrgListCache (ts + t) d ⟨some orgs, some ts, s0.cacheVersion + 1⟩ = _
    unfold getOrgListCache
    simp only [hage, if_neg hts0]
    rw [if_pos (by omega)]

/-- Witness for C1: `set([])` at time 1, `get` 2ms later with duration
300000ms returns `[]`; with duration 1ms but elapsed 2ms it returns absent
and clears both fields. -/
theorem cache_set_then_get_witness :
    getOrgListCache (1 + 2) 300000 (setOrgListCache [] 1 initialCacheState).1 =
      ((setOrgListCache [] 1 initialCacheState).1, some []) ∧
    getOrgListCache (1 + 2) 1 (setOrgListCache [] 1 initialCacheState).1 =
      (⟨none, none, 1⟩, none) :=
  ⟨(cache_set_then_get [] initialCacheState 1 2 300000 (by decide)).1 (by decide),
   (cache_set_then_get [] initialCacheState 1 2 1 (by decide)).2.1 (by decide)⟩

/-- C2: `setOrgListCache` and `clearOrgListCache` each increment the
version by exactly 1 and return the new value; `getOrgListCache` (even
when it evicts an expired entry) leaves the version unchanged; and from a
fresh start, after any operation sequence containing `N` set/clear calls,
`getCacheVersion()` equals `N`. -/
theorem cache_version_accounting (orgs : List OrgRecord) (now d : Nat)
    (s : CacheState) (ops : List CacheOp) :
    (setOrgListCache orgs now s).1.cacheVersion = s.cacheVersion + 1 ∧
    (setOrgListCache orgs now s).2 = s.cacheVersion + 1 ∧
    (clearOrgListCache s).1.cacheVersion = s.cacheVersion + 1 ∧
    (clearOrgListCache s).2 = s.cacheVersion + 1 ∧
    (getOrgListCache now d s).1.cacheVersion = s.cacheVersion ∧
    getCacheVersion (runOps initialCacheState ops) = countWrites ops := by
  refine ⟨rfl, rfl, rfl, rfl, getOrgListCache_version now d s, ?_⟩
  show (runOps initialCacheState ops).cacheVersion = countWrites ops
  rw [runOps_version ops initialCacheState]
  simp [initialCacheState]

/-- C8: from the initial state, every sequence of cache operations (set,
get, clear, stats) leaves the slot either fully present or fully absent —
never exactly one of the two fields set. -/
theorem cache_slot_all_or_nothing (ops : List CacheOp) :
    cacheSlotConsistent (runOps initialCacheState ops) := by
  suffices h : ∀ s, cacheSlotConsistent s → cacheSlotConsistent (runOps s ops) from
    h initialCacheState (Or.inl ⟨rfl, rfl⟩)
  induction ops with
  | nil => intro s hs; exact hs
  | cons op rest ih =>
    intro s hs
    exact ih (applyOp s op) (applyOp_consistent s op hs)

/-- C9 counterexample: on the empty (initial) cache state,
`getCacheStats()` returns an object carrying only
`{cached, size, age, valid}` — the `expiresIn` and `cacheDuration` keys
are absent, so the claim that every cache state yields all six fields is
false. -/
theorem getCacheStats_empty_missing_fields_cex :
    (getCacheStats 5 300000 initialCacheState).expiresIn = none ∧
    (getCacheStats 5 300000 initialCacheState).cacheDuration = none ∧
    (getCacheStats 5 300000 initialCacheState).cached = false := by
  exact ⟨rfl, rfl, rfl⟩

/-- C9 (amended): when the slot is populated (with a real, positive
timestamp), `getCacheStats()` carries all of
`{cached, size, age, valid, expiresIn, cacheDuration}` (plus
`ageSeconds`), with `valid` equal to the same `age ≤ duration` check that
`getOrgListCache` performs for expiry (`valid = true` iff `get` would
return the list rather than evict); `getCacheStats` never modifies the
slot, the timestamp or the version; and on the empty slot it returns only
`{cached:false, size:0, age:0, valid:false}`, the remaining keys absent. -/
theorem getCacheStats_spec (s : CacheState) (orgs : List OrgRecord)
    (ts now d : Nat) (h1 : s.orgListCache = some orgs)
    (h2 : s.cacheTimestamp = some ts) (hts : 0 < ts) :
    getCacheStats now d s =
      ⟨true, orgs.length, now - ts, some ((now - ts + 500) / 1000),
        decide (now - ts ≤ d),
        some (if now - ts ≤ d then d - (now - ts) else 0), some d⟩ ∧
    ((getCacheStats now d s).valid = true ↔
      (getOrgListCache now d s).2 = some orgs) ∧
    applyOp s (.stats now d) = s ∧
    getCacheStats now d initialCacheState =
      ⟨false, 0, 0, none, false, none, none⟩ := by
  have hts0 : ts ≠ 0 := Nat.pos_iff_ne_zero.mp hts
  rcases s with ⟨ol, tso, v⟩
  simp only [CacheState.mk.injEq] at h1 h2 ⊢
  subst h1; subst h2
  refine ⟨?_, ?_, rfl, rfl⟩
  · unfold getCacheStats
    simp [hts0]
  · unfold getCacheStats getOrgListCache
    simp only [if_neg hts0]
    by_cases hle : now - ts ≤ d
    · have hng : ¬ (now - ts > d) := by omega
      simp [hle, hng]
    · have hg : now - ts > d := by omega
      simp [hle, hg]

/-- Witness for C9: a populated slot (one org, timestamp 1) observed at
time 3 with duration 300000ms yields the full stats object with
`valid = true`, and `getOrgListCache` agrees. -/
theorem getCacheStats_spec_witness :
    getCacheStats 3 300000 ⟨some [], some 1, 7⟩ =
      ⟨true, 0, 2, some 0, true, some 299998, some 300000⟩ ∧
    ((getCacheStats 3 300000 ⟨some [], some 1, 7⟩).valid = true ↔
      (getOrgListCache 3 300000 ⟨some [], some 1, 7⟩).2 = some []) := by
  have h := getCacheStats_spec ⟨some [], some 1, 7⟩ [] 1 3 300000 rfl rfl
    (by decide)
  exact ⟨by rw [h.1]; rfl, h.2.1⟩

/-- A raw org object as found in the CLI's `sf org list --json` response:
every field except `username` may be absent. -/
structure RawOrg where
  username : String
  orgAlias : Option String
  orgId : Option String
  instanceUrl : Option String
  connectedStatus : Option String
  isDefaultUsername : Option Bool
  isDefaultDevHubUsername : Option Bool
  isScratchOrg : Option Bool
  expirationDate : Option String
deriving DecidableEq

/-- JS `x || dflt` on an optional string: `undefined` and the empty string
are falsy. -/
def jsOrString (x : Option String) (dflt : String) : String :=
  match x with
  | some s => if s = "" then dflt else s
  | none => dflt

/-- JS `x || false` on an optional boolean. -/
def jsOrFalse (x : Option Bool) : Bool :=
  match x with
  | some b => b
  | none => false

/-- JS `x || null` on an optional string: `undefined` and `""` collapse to
`null`. -/
def jsOrNull (x : Option String) : Option String :=
  match x with
  | some s => if s = "" then none else some s
  | none => none

/-- The per-org mapping inside `listAllOrgs` (sfdxCommandExecutor.js lines
153-163): pick exactly the nine output fields, defaulting a missing alias
to the username, a missing connected status to `"Unknown"`, missing
booleans to `false` and a missing expiration date to `null`. -/
def normalizeOrg (o : RawOrg) : OrgRecord :=
  { username := o.username
    orgAlias := jsOrString o.orgAlias o.username
    orgId := o.orgId
    instanceUrl := o.instanceUrl
    connectedStatus := jsOrString o.connectedStatus "Unknown"
    isDefaultUsername := jsOrFalse o.isDefaultUsername
    isDefaultDevHubUsername := jsOrFalse o.isDefaultDevHubUsername
    isScratchOrg := jsOrFalse o.isScratchOrg
    expirationDate := jsOrNull o.expirationDate }

/-- Payload of a successful `sf org list --json` response; either org
array may be absent. -/
structure OrgListResult where
  nonScratchOrgs : Option (List RawOrg)
  scratchOrgs : Option (List RawOrg)
deriving DecidableEq

/-- Envelope of a parsed `sf org list --json` response. -/
structure SfListResponse where
  status : Int
  result : Option OrgListResult
deriving DecidableEq

/-- `listAllOrgs()` (sfdxCommandExecutor.js lines 138-171) as a function
of the outcome of `executeSfdxCommand("sf org list --json")`: `.error` is
the transport-failure case (the promise rejected and the `catch` block
ran).  On status 0 with a result object it concatenates
`nonScratchOrgs ++ scratchOrgs` (a missing array contributes nothing) and
normalizes each record; every other outcome yields `[]`. -/
def listAllOrgs (resp : Except String SfListResponse) : List OrgRecord :=
  match resp with
  | .error _ => []
  | .ok r =>
    if r.status = 0 then
      match r.result with
      | some res =>
        ((res.nonScratchOrgs.getD []) ++ (res.scratchOrgs.getD [])).map
          normalizeOrg
      | none => []
    else []

/-- C3: on a status-0 response with a result object, `listAllOrgs`
returns `nonScratchOrgs ++ scratchOrgs` (missing arrays empty), each
record normalized by `normalizeOrg` — order preserved within each array —
with a missing alias defaulted to the username, the three booleans
defaulted to `false`, a missing connected status defaulted to
`"Unknown"`, and a missing expiration date defaulted to `null`. -/
theorem listAllOrgs_success_normalization (r : SfListResponse)
    (res : OrgListResult) (h0 : r.status = 0) (hres : r.result = some res) :
    listAllOrgs (.ok r) =
      ((res.nonScratchOrgs.getD []) ++ (res.scratchOrgs.getD [])).map
        normalizeOrg ∧
    (∀ o : RawOrg, o.orgAlias = none →
      (normalizeOrg o).orgAlias = o.username) ∧
    (∀ o : RawOrg, o.connectedStatus = none →
      (normalizeOrg o).connectedStatus = "Unknown") ∧
    (∀ o : RawOrg, o.isDefaultUsername = none →
      (normalizeOrg o).isDefaultUsername = false) ∧
    (∀ o : RawOrg, o.isDefaultDevHubUsername = none →
      (normalizeOrg o).isDefaultDevHubUsername = false) ∧
    (∀ o : RawOrg, o.isScratchOrg = none →
      (normalizeOrg o).isScratchOrg = false) ∧
    (∀ o : RawOrg, o.expirationDate = none →
      (normalizeOrg o).expirationDate = none) ∧
    (∀ o : RawOrg, (normalizeOrg o).username = o.username) := by
  refine ⟨?_, ?_, ?_, ?_, ?_, ?_, ?_, fun o => rfl⟩
  · simp only [listAllOrgs]
    rw [if_pos h0, hres]
  · intro o h; simp [normalizeOrg, jsOrString, h]
  · intro o h; simp [normalizeOrg, jsOrString, h]
  · intro o h; simp [normalizeOrg, jsOrFalse, h]
  · intro o h; simp [normalizeOrg, jsOrFalse, h]
  · intro o h; simp [normalizeOrg, jsOrFalse, h]
  · intro o h; simp [normalizeOrg, jsOrNull, h]

/-- Witness for C3: a response with one non-scratch org `A` (alias and
booleans missing) and one scratch org `B` normalizes to `[A', B']` with
`A'.orgAlias = A.username` and defaulted fields, in input order. -/
theorem listAllOrgs_success_normalization_witness :
    listAllOrgs (.ok ⟨0, some ⟨some [⟨"a@x.com", none, none, none, none,
        some true, none, none, none⟩],
      some [⟨"b@x.com", none, none, none, none, none, none, some true,
        none⟩]⟩⟩) =
      [⟨"a@x.com", "a@x.com", none, none, "Unknown", true, false, false,
        none⟩,
       ⟨"b@x.com", "b@x.com", none, none, "Unknown", false, false, true,
        none⟩] := by
  rw [(listAllOrgs_success_normalization ⟨0, some ⟨some [⟨"a@x.com", none,
    none, none, none, some true, none, none, none⟩], some [⟨"b@x.com",
    none, none, none, none, none, none, some true, none⟩]⟩⟩ ⟨some
    [⟨"a@x.com", none, none, none, none, some true, none, none, none⟩],
    some [⟨"b@x.com", none, none, none, none, none, none, some true,
    none⟩]⟩ rfl rfl).1]
  rfl

/-- C6: `listAllOrgs` resolves with the empty list on every internal
failure — a transport failure (rejected execute), a non-zero status, or a
missing result object — and signals no error. -/
theorem listAllOrgs_failure_returns_empty (e : String)
    (r : SfListResponse) :
    listAllOrgs (.error e) = [] ∧
    (r.status ≠ 0 → listAllOrgs (.ok r) = []) ∧
    (r.result = none → listAllOrgs (.ok r) = []) := by
  refine ⟨rfl, ?_, ?_⟩
  · intro h
    simp only [listAllOrgs]
    rw [if_neg h]
  · intro h
    simp only [listAllOrgs]
    rw [h]
    split <;> rfl

/-- Witness for C6: a rejected execute, a status-1 response and a
status-0 response with no result body all yield `[]`. -/
theorem listAllOrgs_failure_returns_empty_witness :
    listAllOrgs (.error "spawn sf ENOENT") = [] ∧
    listAllOrgs (.ok ⟨1, none⟩) = [] ∧
    listAllOrgs (.ok ⟨0, none⟩) = [] :=
  ⟨(listAllOrgs_failure_returns_empty "spawn sf ENOENT" ⟨1, none⟩).1,
   (listAllOrgs_failure_returns_empty "spawn sf ENOENT" ⟨1, none⟩).2.1
     (by decide),
   (listAllOrgs_failure_returns_empty "spawn sf ENOENT" ⟨0, none⟩).2.2 rfl⟩

/-- One output stream (`stdout` or `stderr`) of the external tool, as far
as `executeSfdxCommand` can observe it: empty, a valid JSON document
(represented by the parsed body it encodes), or non-empty text that is
not JSON. -/
inductive SfOutput where
  | empty
  | jsonBody (status : Int) (message : String)
  | malformed (text : String)
deriving DecidableEq

/-- Parsed body of a CLI response, as far as the executor inspects it. -/
structure ParsedBody where
  status : Int
  message : String
deriving DecidableEq

/-- `JSON.parse` on an output stream: succeeds exactly on a valid JSON
document (`JSON.parse("")` throws, malformed text throws). -/
def jsParseOutput : SfOutput → Option ParsedBody
  | .jsonBody st m => some ⟨st, m⟩
  | _ => none

/-- JS string truthiness of an output stream: only the empty string is
falsy. -/
def outputTruthy : SfOutput → Bool
  | .empty => false
  | _ => true

/-- How `executeSfdxCommand` can settle. -/
inductive ExecOutcome where
  | ok (body : ParsedBody)
  | processError (message : String)
  | parseError (message : String)
deriving DecidableEq

/-- `executeSfdxCommand(command)` (sfdxCommandExecutor.js lines 72-106) as
a function of the process callback's arguments `(error, stdout, stderr)`.
With a process-level error it evaluates `JSON.parse(stdout || stderr)` —
JS `||` picks `stdout` whenever it is non-empty — resolving with the
parsed body on success and rejecting with the original error on a parse
throw.  Without a process error it parses `stdout`, rejecting with a
`Failed to parse SFDX output` error on a parse throw. -/
def executeSfdxCommand (procError : Option String)
    (stdout stderr : SfOutput) : ExecOutcome :=
  match procError with
  | some err =>
    match jsParseOutput (if outputTruthy stdout then stdout else stderr) with
    | some errorData => .ok errorData
    | none => .processError err
  | none =>
    match jsParseOutput stdout with
    | some data => .ok data
    | none => .parseError "Failed to parse SFDX output"

/-- C4 counterexample: with a process-level error, non-empty non-JSON
stdout and valid JSON on stderr, `executeSfdxCommand` rejects with the
original process error even though stderr parses — refuting the claim
that it rejects only when parsing both stdout and stderr fails. -/
theorem executeSfdxCommand_stderr_ignored_cex :
    executeSfdxCommand (some "Command failed")
        (.malformed "Warning: update available") (.jsonBody 1 "Auth error") =
      .processError "Command failed" ∧
    jsParseOutput (.jsonBody 1 "Auth error") = some ⟨1, "Auth error"⟩ := by
  exact ⟨rfl, rfl⟩

/-- C4 (amended): on a process-level error the executor parses exactly one
stream — stdout when it is non-empty, stderr otherwise; it resolves with
the parsed body when that stream is valid JSON and rejects with the
original process error when it is not (stderr is never consulted while
stdout is non-empty).  In particular it still rejects whenever both
streams fail to parse, and without a process error it resolves iff stdout
parses. -/
theorem executeSfdxCommand_error_parsing (err : String)
    (stdout stderr : SfOutput) (body : ParsedBody) :
    (outputTruthy stdout = true → jsParseOutput stdout = some body →
      executeSfdxCommand (some err) stdout stderr = .ok body) ∧
    (outputTruthy stdout = true → jsParseOutput stdout = none →
      executeSfdxCommand (some err) stdout stderr = .processError err) ∧
    (outputTruthy stdout = false → jsParseOutput stderr = some body →
      executeSfdxCommand (some err) stdout stderr = .ok body) ∧
    (outputTruthy stdout = false → jsParseOutput stderr = none →
      executeSfdxCommand (some err) stdout stderr = .processError err) ∧
    (jsParseOutput stdout = some body →
      executeSfdxCommand none stdout stderr = .ok body) ∧
    (jsParseOutput stdout = none →
      executeSfdxCommand none stdout stderr =
        .parseError "Failed to parse SFDX output") := by
  refine ⟨?_, ?_, ?_, ?_, ?_, ?_⟩
  · intro ht hp; simp [executeSfdxCommand, ht, hp]
  · intro ht hp; simp [executeSfdxCommand, ht, hp]
  · intro ht hp; simp [executeSfdxCommand, ht, hp]
  · intro ht hp; simp [executeSfdxCommand, ht, hp]
  · intro hp; simp [executeSfdxCommand, hp]
  · intro hp; simp [executeSfdxCommand, hp]

/-- Witness for C4 (amended): JSON on stdout resolves despite the process
error; empty stdout falls back to stderr's JSON; both streams unparseable
rejects with the original error; garbage stdout on the success path
rejects with the parse error. -/
theorem executeSfdxCommand_error_parsing_witness :
    executeSfdxCommand (some "Command failed") (.jsonBody 1 "Auth error")
        .empty = .ok ⟨1, "Auth error"⟩ ∧
    executeSfdxCommand (some "Command failed") .empty
        (.jsonBody 1 "Auth error") = .ok ⟨1, "Auth error"⟩ ∧
    executeSfdxCommand (some "Command failed") (.malformed "x")
        (.malformed "y") = .processError "Command failed" ∧
    executeSfdxCommand none (.malformed "not valid json") .empty =
      .parseError "Failed to parse SFDX output" :=
  ⟨(executeSfdxCommand_error_parsing "Command failed"
      (.jsonBody 1 "Auth error") .empty ⟨1, "Auth error"⟩).1 rfl rfl,
   (executeSfdxCommand_error_parsing "Command failed" .empty
      (.jsonBody 1 "Auth error") ⟨1, "Auth error"⟩).2.2.1 rfl rfl,
   (executeSfdxCommand_error_parsing "Command failed" (.malformed "x")
      (.malformed "y") ⟨0, ""⟩).2.1 rfl rfl,
   (executeSfdxCommand_error_parsing "unused" (.malformed "not valid json")
      .empty ⟨0, ""⟩).2.2.2.2.2 rfl⟩

/-- Command line built by `reauthenticateOrg(username, instanceUrl)`
(sfdxCommandExecutor.js lines 211-219): the instance-url form is used only
when `instanceUrl` is truthy (non-null and non-empty) and is not the
literal string `"undefined"`. -/
def reauthenticateOrgCommand (username : String)
    (instanceUrl : Option String) : String :=
  match instanceUrl with
  | some url =>
    if url ≠ "" ∧ url ≠ "undefined" then
      "sf org login web --instance-url " ++ url ++ " --alias " ++ username
        ++ " --json"
    else "sf org login web --alias " ++ username ++ " --json"
  | none => "sf org login web --alias " ++ username ++ " --json"

/-- Command line built by `authenticateNewOrg(alias, instanceUrl)`
(sfdxCommandExecutor.js lines 342-352): each flag is appended when its
argument is truthy (non-null and non-empty); there is no check against
the literal string `"undefined"` here. -/
def authenticateNewOrgCommand (orgAlias instanceUrl : Option String) :
    String :=
  let command := "sf org login web --json"
  let command :=
    match instanceUrl with
    | some url => if url = "" then command
        else command ++ " --instance-url " ++ url
    | none => command
  match orgAlias with
  | some a => if a = "" then command else command ++ " --alias " ++ a
  | none => command

/-- Whether a character list occurs as a contiguous run of another. -/
def charsInfix (pat : List Char) : List Char → Bool
  | [] => pat.isEmpty
  | c :: rest => pat.isPrefixOf (c :: rest) || charsInfix pat rest

/-- Whether a command line contains the `--instance-url` flag. -/
def hasInstanceUrlFlag (cmd : String) : Bool :=
  charsInfix "--instance-url".toList cmd.toList

/-- C5 counterexample: `authenticateNewOrg` with the literal string
`"undefined"` as instance URL does include the `--instance-url` flag
(only truthiness is checked there), while `reauthenticateOrg` with the
same argument omits it — so the claimed policy does not hold for both
functions. -/
theorem authenticateNewOrg_undefined_cex :
    hasInstanceUrlFlag
      (authenticateNewOrgCommand (some "myOrg") (some "undefined")) = true ∧
    authenticateNewOrgCommand (some "myOrg") (some "undefined") =
      "sf org login web --json --instance-url undefined --alias myOrg" ∧
    hasInstanceUrlFlag
      (reauthenticateOrgCommand "myOrg" (some "undefined")) = false := by
  refine ⟨?_, rfl, ?_⟩ <;> decide

/-- C5 (amended): `reauthenticateOrg` treats a null, empty or literal
`"undefined"` instance URL as absent and omits the flag, including it for
any other non-empty value; `authenticateNewOrg` treats only a null or
empty instance URL as absent and includes the flag for every non-empty
value — the literal string `"undefined"` included. -/
theorem instanceUrl_flag_policy (u url : String) (h1 : url ≠ "")
    (h2 : url ≠ "undefined") :
    reauthenticateOrgCommand u none =
      "sf org login web --alias " ++ u ++ " --json" ∧
    reauthenticateOrgCommand u (some "") =
      "sf org login web --alias " ++ u ++ " --json" ∧
    reauthenticateOrgCommand u (some "undefined") =
      "sf org login web --alias " ++ u ++ " --json" ∧
    reauthenticateOrgCommand u (some url) =
      "sf org login web --instance-url " ++ url ++ " --alias " ++ u
        ++ " --json" ∧
    authenticateNewOrgCommand none none = "sf org login web --json" ∧
    authenticateNewOrgCommand none (some "") = "sf org login web --json" ∧
    (∀ v : String, v ≠ "" →
      authenticateNewOrgCommand none (some v) =
        "sf org login web --json --instance-url " ++ v) := by
  refine ⟨rfl, by simp [reauthenticateOrgCommand], by
    simp [reauthenticateOrgCommand], ?_, rfl, rfl, ?_⟩
  · simp [reauthenticateOrgCommand, h1, h2]
  · intro v hv
    simp [authenticateNewOrgCommand, hv]

/-- Witness for C5 (amended): concrete command lines for
`reauthenticateOrg("myOrg", "https://x.com")` and
`authenticateNewOrg(null, "undefined")`. -/
theorem instanceUrl_flag_policy_witness :
    reauthenticateOrgCommand "myOrg" (some "https://x.com") =
      "sf org login web --instance-url https://x.com --alias myOrg --json" ∧
    authenticateNewOrgCommand none (some "undefined") =
      "sf org login web --json --instance-url undefined" ∧
    reauthenticateOrgCommand "myOrg" (some "undefined") =
      "sf org login web --alias myOrg --json" :=
  ⟨(instanceUrl_flag_policy "myOrg" "https://x.com" (by decide)
      (by decide)).2.2.2.1,
   (instanceUrl_flag_policy "myOrg" "https://x.com" (by decide)
      (by decide)).2.2.2.2.2.2 "undefined" (by decide),
   (instanceUrl_flag_policy "myOrg" "https://x.com" (by decide)
      (by decide)).2.2.1⟩

/-- A message posted by the router back to the webview
(`webview.postMessage` in orgMessageHandler.js). -/
inductive Msg where
  | orgsListResponse (data : List OrgRecord) (success : Bool)
      (cached : Bool)
  | operationComplete (operation : String) (success : Bool)
      (message : String)
deriving DecidableEq

/-- Uniform `{success, message}` result returned by every Executor
operation (they catch internally and never throw). -/
structure OpResult where
  success : Bool
  message : String
deriving DecidableEq

/-- `handleListOrgs(webview, forceRefresh)` (orgMessageHandler.js lines
83-121) as a state transformer.  `fetched` is what
`sfdxExecutor.listAllOrgs()` would return if invoked, `now`/`d` are the
clock and configured duration the cache observes.  Returns the new cache
state, the posted `orgsListResponse`, and whether the CLI fetch was
performed.  The cache-hit guard `if (cached)` is JS-truthy: any array —
`[]` included — is a hit; only `null` falls through to the fetch. -/
def handleListOrgs (fetched : List OrgRecord) (now d : Nat)
    (forceRefresh : Bool) (s : CacheState) : CacheState × Msg × Bool :=
  if forceRefresh then
    ((setOrgListCache fetched now s).1,
      .orgsListResponse fetched true false, true)
  else
    let res := getOrgListCache now d s
    match res.2 with
    | some cached => (res.1, .orgsListResponse cached true true, false)
    | none =>
      ((setOrgListCache fetched now res.1).1,
        .orgsListResponse fetched true false, true)

/-- `handleLogoutOrg(webview, username)` (orgMessageHandler.js lines
226-273) as a state transformer.  `confirm` is the modal dialog's result
(`some "Yes, Logout"` on acceptance, any other string or `none` on
decline/dismissal), `logoutResult` is what `sfdxExecutor.logoutOrg` would
return if invoked, `fetched` feeds the forced refresh.  Returns the new
cache state, the posted messages in order, and whether the Executor's
logout was invoked. -/
def handleLogoutOrg (confirm : Option String) (logoutResult : OpResult)
    (fetched : List OrgRecord) (now d : Nat) (s : CacheState) :
    CacheState × List Msg × Bool :=
  if confirm ≠ some "Yes, Logout" then
    (s, [.operationComplete "logout" false "Logout cancelled"], false)
  else if logoutResult.success then
    let s1 := (clearOrgListCache s).1
    let r := handleListOrgs fetched now d true s1
    (r.1, [r.2.1,
      .operationComplete "logout" logoutResult.success
        logoutResult.message], true)
  else
    (s, [.operationComplete "logout" false logoutResult.message], true)

/-- C7: when the modal confirmation is declined or dismissed, the
Executor's logout is never invoked, the cache is unchanged and the single
response is `{operation:"logout", success:false,
message:"Logout cancelled"}`; when it is accepted and the tool reports
success, the cache is cleared and repopulated by a forced list refresh
(its `orgsListResponse` carries `cached:false`) before the final
`{operation:"logout", success:true, ...}` response. -/
theorem handleLogoutOrg_flow (confirm : Option String)
    (logoutResult : OpResult) (fetched : List OrgRecord) (now d : Nat)
    (s : CacheState) :
    (confirm ≠ some "Yes, Logout" →
      handleLogoutOrg confirm logoutResult fetched now d s =
        (s, [.operationComplete "logout" false "Logout cancelled"],
          false)) ∧
    (confirm = some "Yes, Logout" → logoutResult.success = true →
      handleLogoutOrg confirm logoutResult fetched now d s =
        (⟨some fetched, some now, s.cacheVersion + 2⟩,
          [.orgsListResponse fetched true false,
           .operationComplete "logout" true logoutResult.message],
          true)) := by
  constructor
  · intro h
    simp only [handleLogoutOrg, if_pos h]
  · intro hc hs
    simp only [handleLogoutOrg, hc, hs]
    simp [handleListOrgs, clearOrgListCache, setOrgListCache]

/-- Witness for C7: a dismissed dialog leaves the fresh cache untouched
and cancels; an accepted dialog with a successful tool logout clears and
force-refreshes the cache before the final success response. -/
theorem handleLogoutOrg_flow_witness :
    handleLogoutOrg none ⟨true, "Logged out from org: u"⟩ [] 5 300000
        initialCacheState =
      (initialCacheState,
        [.operationComplete "logout" false "Logout cancelled"], false) ∧
    handleLogoutOrg (some "Yes, Logout") ⟨true, "Logged out from org: u"⟩
        [] 5 300000 initialCacheState =
      (⟨some [], some 5, 2⟩,
        [.orgsListResponse [] true false,
         .operationComplete "logout" true "Logged out from org: u"],
        true) :=
  ⟨(handleLogoutOrg_flow none ⟨true, "Logged out from org: u"⟩ [] 5 300000
      initialCacheState).1 (by decide),
   (handleLogoutOrg_flow (some "Yes, Logout")
      ⟨true, "Logged out from org: u"⟩ [] 5 300000 initialCacheState).2
      rfl rfl⟩

/-- C10: on a cache miss or a forced refresh, `handleListOrgs` stores
whatever `listAllOrgs` returned — the empty list a failed CLI fetch
produces included — with a fresh timestamp, and answers
`{data, success:true, cached:false}`; every subsequent non-forced request
within the cache duration is then answered
`{data: [], success:true, cached:true}` without invoking the CLI fetch
(the second call's outcome is independent of its `fetched2` argument). -/
theorem handleListOrgs_caches_failed_fetch
    (fetched fetched2 : List OrgRecord) (now t d : Nat) (s : CacheState)
    (force : Bool)
    (hmiss : force = true ∨ (getOrgListCache now d s).2 = none)
    (hnow : 0 < now) (ht : t ≤ d) :
    handleListOrgs fetched now d force s =
      (⟨some fetched, some now, s.cacheVersion + 1⟩,
        .orgsListResponse fetched true false, true) ∧
    handleListOrgs fetched2 (now + t) d false
        ⟨some fetched, some now, s.cacheVersion + 1⟩ =
      (⟨some fetched, some now, s.cacheVersion + 1⟩,
        .orgsListResponse fetched true true, false) := by
  have hnow0 : now ≠ 0 := Nat.pos_iff_ne_zero.mp hnow
  constructor
  · rcases hmiss with hf | hm
    · subst hf
      simp [handleListOrgs, setOrgListCache]
    · cases hforce : force with
      | true =>
        simp [handleListOrgs, setOrgListCache]
      | false =>
        simp only [handleListOrgs, Bool.false_eq_true, if_false]
        rw [hm]
        simp [setOrgListCache, getOrgListCache_version]
  · simp only [handleListOrgs, Bool.false_eq_true, if_false]
    have : getOrgListCache (now + t) d
        ⟨some fetched, some now, s.cacheVersion + 1⟩ =
        (⟨some fetched, some now, s.cacheVersion + 1⟩, some fetched) := by
      unfold getOrgListCache
      simp only [if_neg hnow0]
      rw [if_neg (by omega)]
    rw [this]

/-- Witness for C10: after a forced refresh stores the empty list a
failed fetch produced (at time 5), a non-forced request 7ms later —
whose hypothetical fresh fetch would return one org — is served the
cached `[]` without fetching. -/
theorem handleListOrgs_caches_failed_fetch_witness :
    handleListOrgs [] 5 300000 true initialCacheState =
      (⟨some [], some 5, 1⟩, .orgsListResponse [] true false, true) ∧
    handleListOrgs
        [⟨"a@x.com", "a@x.com", none, none, "Unknown", false, false,
          false, none⟩] (5 + 7) 300000 false ⟨some [], some 5, 1⟩ =
      (⟨some [], some 5, 1⟩, .orgsListResponse [] true true, false) :=
  ⟨(handleListOrgs_caches_failed_fetch []
      [⟨"a@x.com", "a@x.com", none, none, "Unknown", false, false, false,
        none⟩] 5 7 300000 initialCacheState true (Or.inl rfl) (by decide)
      (by decide)).1,
   (handleListOrgs_caches_failed_fetch []
      [⟨"a@x.com", "a@x.com", none, none, "Unknown", false, false, false,
        none⟩] 5 7 300000 initialCacheState true (Or.inl rfl) (by decide)
      (by decide)).2⟩
